import Mathlib

/-!
Shallow embedding of the BalanceSheetAIrec repository (src/recon_ap.py and
src/variance_investigator.py), together with theorems settling the frozen
claims about its specification.

Python strings are modelled by Lean `String`; every Python string operation
used by the code (`lower`, `split`, `replace`, `strip`, substring membership,
`isdigit`, `float(...)`) is given an executable model over the character list
`String.data`, so that all definitions kernel-evaluate on concrete inputs.
Python numbers (floats holding monetary values and percentages) are modelled
by `ℚ`; a raised Python exception is modelled by `Except.error`.
-/

set_option maxRecDepth 8000

/-- Model of Python `str.lower()` (ASCII case folding, which is all the
repository's data uses). -/
def strLower (s : String) : String := (s.data.map Char.toLower).asString

/-- Model of Python's substring test `pat in s`. -/
def strContainsSub (s pat : String) : Bool :=
  s.data.tails.any (fun t => pat.data.isPrefixOf t)

/-- Split a character list at every character satisfying `p` (no collapsing
of empty pieces; Python's `str.split()` drops them separately). -/
def splitOnPred (p : Char → Bool) : List Char → List (List Char)
  | [] => [[]]
  | a :: t =>
    let r := splitOnPred p t
    if p a then [] :: r
    else match r with
      | [] => [[a]]
      | h :: t2 => (a :: h) :: t2

/-- Model of Python `str.split()` with no argument: split on whitespace runs,
dropping empty pieces. -/
def splitWhitespace (s : String) : List String :=
  ((splitOnPred Char.isWhitespace s.data).filter (fun w => !w.isEmpty)).map List.asString

/-- Split at a single concrete character (used to model counting/splitting on
the decimal point). -/
def splitOnChar (c : Char) (l : List Char) : List (List Char) :=
  splitOnPred (fun a => a = c) l

/-- Strip leading and trailing whitespace, Python `str.strip()`. -/
def trimChars (l : List Char) : List Char :=
  ((l.dropWhile Char.isWhitespace).reverse.dropWhile Char.isWhitespace).reverse

/-- Numeric value of a list of decimal digit characters. -/
def digitsToNat (l : List Char) : Nat :=
  l.foldl (fun n c => 10 * n + (c.toNat - 48)) 0

/-- Model of Python `float(s)` on strings, as a partial function: `none` models
a raised `ValueError`.  It accepts an optional sign and a decimal literal with
at most one decimal point and at least one digit, after stripping surrounding
whitespace — the forms the repository's data can produce.  (Python additionally
accepts exponent/infinity forms; no claim depends on those, and every token the
repository feeds to `float` is built from digits, `.` and `,` only.) -/
def pyFloat? (s : String) : Option ℚ :=
  let t := trimChars s.data
  let sg : ℚ × List Char :=
    match t with
    | '-' :: r => (-1, r)
    | '+' :: r => (1, r)
    | r => (1, r)
  match splitOnChar '.' sg.2 with
  | [ip] =>
    if !ip.isEmpty && ip.all Char.isDigit then some (sg.1 * digitsToNat ip) else none
  | [ip, fp] =>
    let ds := ip ++ fp
    if !ds.isEmpty && ds.all Char.isDigit then
      some (sg.1 * (digitsToNat ds : ℚ) / (10 ^ fp.length))
    else none
  | _ => none

/-! ## `src/recon_ap.py`: the statement-total extractor

`extract_total_from_statement` (lines 31-72).  The PDF-reading `try` block is
external I/O; the extraction heuristic proper receives the extracted text.
The text is modelled by its list of lines (the result of `text.splitlines()`),
and the result type `Except Unit ℚ` records a raised exception (`float` on a
token that passed the digit check but is not a valid literal) as `.error ()`.
-/

/-- Token cleaning, lines 49-50: keep only digits, `.` and `,`, then remove
the commas (two steps, as in the source). -/
def cleanToken (w : String) : String :=
  let kept := w.data.filter (fun c => c.isDigit || c = '.' || c = ',')
  (kept.filter (fun c => !(c = ','))).asString

/-- The acceptance test of line 51 / line 64:
`word_clean and word_clean.replace(".", "").isdigit()`
(Python `isdigit` is true on nonempty all-digit strings). -/
def tokenOk (w : String) : Bool :=
  let c := (cleanToken w).data
  !c.isEmpty && (let d := c.filter (fun ch => !(ch = '.')); !d.isEmpty && d.all Char.isDigit)

/-- `float(word_clean)` on an accepted token; raises (`.error`) when the
cleaned token is not a valid float literal (e.g. two decimal points). -/
def parseCleaned (w : String) : Except Unit ℚ :=
  match pyFloat? (cleanToken w) with
  | some q => Except.ok q
  | none => Except.error ()

/-- Line 45: `"balance" in line.lower() or "total" in line.lower()`. -/
def hasBalanceOrTotal (l : String) : Bool :=
  strContainsSub (strLower l) "balance" || strContainsSub (strLower l) "total"

/-- Line 57: `("$" in line or "balance" in line.lower()) and any(d in line for d in "0123456789")`. -/
def tier2Cond (l : String) : Bool :=
  (strContainsSub l "$" || strContainsSub (strLower l) "balance") && l.data.any Char.isDigit

/-- Lines 48-53: scan the (already reversed) tokens of a labeled line and
return the result of `float` on the first accepted one; `none` when no token
is accepted. -/
def scanWords : List String → Option (Except Unit ℚ)
  | [] => none
  | w :: ws => if tokenOk w then some (parseCleaned w) else scanWords ws

/-- Lines 44-53: the labeled-line tier, over the (already reversed) list of
document lines. -/
def tier1 : List String → Option (Except Unit ℚ)
  | [] => none
  | l :: ls =>
    if hasBalanceOrTotal l then
      match scanWords (splitWhitespace l).reverse with
      | some r => some r
      | none => tier1 ls
    else tier1 ls

/-- Lines 60-65: collect `float` of every accepted token of a line, in order;
a raise inside the loop aborts the whole collection. -/
def collectNumbers (ws : List String) : Except Unit (List ℚ) :=
  ws.foldlM (fun acc w => if tokenOk w then (parseCleaned w).map (fun q => acc ++ [q]) else pure acc) []

/-- Lines 56-69: the contextual-numeric tier, over the document lines in
order; takes the last collected number of the first qualifying line that
yields any. -/
def tier2 : List String → Option (Except Unit ℚ)
  | [] => none
  | l :: ls =>
    if tier2Cond l then
      match collectNumbers (splitWhitespace l) with
      | Except.error e => some (Except.error e)
      | Except.ok [] => tier2 ls
      | Except.ok (n :: ns) => some (Except.ok (ns.getLastD n))
    else tier2 ls

/-- Lines 43-72 of `extract_total_from_statement`: the full ordered-fallback
extraction on the document's lines, with the caller-supplied fallback
(`EXPECTED_SUPPLIER_TOTAL` at the call site). -/
def extract_total (lines : List String) (fallback : ℚ) : Except Unit ℚ :=
  match tier1 lines.reverse with
  | some r => r
  | none =>
    match tier2 lines with
    | some r => r
    | none => Except.ok fallback

/-! ## `src/recon_ap.py`: the ledger aggregator -/

/-- One general-ledger row as consumed by `filter_ap_activity`:
`account_code` compared as string (line 85, `astype(str)`), the date reduced
to its parsed month — `none` models a date `pd.to_datetime(..., errors="coerce")`
turned into `NaT` (lines 91-98), whose month comparison is then false. -/
structure LedgerRow where
  account_code : String
  month : Option Nat
  credit : ℚ
  debit : ℚ
deriving DecidableEq

/-- Lines 83-108 (`filter_ap_activity`): filter to the target account code,
sum `credit` minus `debit` per month (8 = August, 9 = September), and return
`(aug, sep, movement)` with `movement = sep - aug`. -/
def filter_ap_activity (code : String) (rows : List LedgerRow) : ℚ × ℚ × ℚ :=
  let f := rows.filter (fun r => r.account_code = code)
  let aug := ((f.filter (fun r => r.month = some 8)).map (·.credit)).sum
           - ((f.filter (fun r => r.month = some 8)).map (·.debit)).sum
  let sep := ((f.filter (fun r => r.month = some 9)).map (·.credit)).sum
           - ((f.filter (fun r => r.month = some 9)).map (·.debit)).sum
  (aug, sep, sep - aug)

/-! ## `src/variance_investigator.py`: the workbook model

The "AP Reconciliation Summary" worksheet is modelled as a list of rows, row
`r` (1-indexed, as in openpyxl) holding an `A` cell and a `B` cell.  A cell
is empty, a plain value (string or number), or a formula together with the
cached value a spreadsheet application may have stored for it.  Opening the
workbook with `data_only=True` sees the cached value of a formula cell
(`dataView`); opening it with `data_only=False` sees the formula text itself
as a string (`formView`).  Rows outside the list read as empty. -/

inductive CellVal where
  | str (s : String)
  | num (q : ℚ)
deriving DecidableEq

inductive CellContent where
  | empty
  | val (v : CellVal)
  | formula (f : String) (cached : Option CellVal)
deriving DecidableEq

/-- Cell value seen through `load_workbook(..., data_only=True)`. -/
def dataView : CellContent → Option CellVal
  | CellContent.empty => none
  | CellContent.val v => some v
  | CellContent.formula _ c => c

/-- Cell value seen through `load_workbook(...)` (default, `data_only=False`). -/
def formView : CellContent → Option CellVal
  | CellContent.empty => none
  | CellContent.val v => some v
  | CellContent.formula f _ => some (CellVal.str f)

structure SheetRow where
  a : CellContent
  b : CellContent
deriving DecidableEq

abbrev Sheet := List SheetRow

def emptyRow : SheetRow := ⟨CellContent.empty, CellContent.empty⟩

/-- Row `r` (1-indexed); rows beyond the populated region are empty. -/
def getRow (s : Sheet) (r : Nat) : SheetRow := s.getD (r - 1) emptyRow

def getA (s : Sheet) (r : Nat) : CellContent := (getRow s r).a

def getB (s : Sheet) (r : Nat) : CellContent := (getRow s r).b

/-- Extend the sheet with empty rows so that row `n` exists. -/
def padTo (s : Sheet) (n : Nat) : Sheet := s ++ List.replicate (n - s.length) emptyRow

def setRow (s : Sheet) (r : Nat) (row : SheetRow) : Sheet := (padTo s r).set (r - 1) row

/-- Assign cell `A{r}` (openpyxl `ws[f"A{row}"] = ...`). -/
def setA (s : Sheet) (r : Nat) (v : CellContent) : Sheet := setRow s r ⟨v, (getRow s r).b⟩

/-- Assign cell `B{r}`. -/
def setB (s : Sheet) (r : Nat) (v : CellContent) : Sheet := setRow s r ⟨(getRow s r).a, v⟩

/-- Python truthiness of a cell value (`if cell.value`): `None`, `""` and `0`
are falsy. -/
def cellTruthy : Option CellVal → Bool
  | none => false
  | some (CellVal.str t) => !(t == "")
  | some (CellVal.num q) => decide (q ≠ 0)

/-- Lines 270 and 291: `cell.value and str(cell.value).lower() == "reason"`,
on the default (formula) view of the `A` cell.  `str` of a number can never
be `"reason"`, so only string values qualify. -/
def isReasonA (c : CellContent) : Bool :=
  match formView c with
  | some (CellVal.str t) => !(t == "") && (strLower t == "reason")
  | _ => false

/-- The first row in 1..49 whose `A` cell holds "reason" (the `for row in
range(1, 50)` searches of lines 269 and 290). -/
def findReasonRow (s : Sheet) : Option Nat :=
  (List.range' 1 49).find? (fun r => isReasonA (getA s r))

/-- Lines 300-304: `last_row = 1`, then for each row 1..49 with a truthy `A`
value, `last_row = row`. -/
def lastTruthyRow (s : Sheet) : Nat :=
  (List.range' 1 49).foldl (fun acc r => if cellTruthy (formView (getA s r)) then r else acc) 1

/-- Number of "Reason" rows anywhere in the sheet. -/
def reasonCount (s : Sheet) : Nat := s.countP (fun row => isReasonA row.a)

/-- Lines 262-280 (`clear_previous_reason`), the in-memory effect on the
summary sheet: clear both cells of the first "reason" row, if any. -/
def clear_previous_reason (s : Sheet) : Sheet :=
  match findReasonRow s with
  | some r => setB (setA s r CellContent.empty) r CellContent.empty
  | none => s

/-- Lines 282-314 (`update_excel_with_reason`): overwrite the value cell of
the first "reason" row if one exists in rows 1..49, else write the pair
`("Reason", reason)` into the row after the last row with a truthy `A`
value. -/
def update_excel_with_reason (reason : String) (s : Sheet) : Sheet :=
  match findReasonRow s with
  | some r => setB s r (CellContent.val (CellVal.str reason))
  | none =>
    let lr := lastTruthyRow s
    setB (setA s (lr + 1) (CellContent.val (CellVal.str "Reason")))
      (lr + 1) (CellContent.val (CellVal.str reason))

/-! ## `read_mom_percentage` (lines 19-66)

The function is a single Python `try` block whose body can raise (a failed
`float(...)` conversion); any exception is caught and turned into `0.0`.
`read_mom_core` is the body (`.error ()` models a raised exception),
`read_mom_percentage` the whole function. -/

/-- `"MoM % Change" in str(cell_a.value)`: substring test on the Python
`str()` rendering; a numeric value never contains the pattern. -/
def pass1Contains : Option CellVal → Bool
  | some (CellVal.str t) => strContainsSub t "MoM % Change"
  | _ => false

/-- The condition under which the first pass (lines 27-38, `data_only=True`)
stops at row `r` and converts: the `A` cell is truthy, contains the substring
`"MoM % Change"`, and the `B` cell's calculated value is not `None`. -/
def pass1Cond (s : Sheet) (r : Nat) : Bool :=
  cellTruthy (dataView (getA s r)) &&
    pass1Contains (dataView (getA s r)) &&
    !(dataView (getB s r) == none)

/-- Line 52 / 54: `float(cell_b.value) if cell_b.value else 0.0` on the
formula view of a `B` cell; a failed string conversion raises. -/
def coerceB (s : Sheet) (r : Nat) : Except Unit ℚ :=
  match formView (getB s r) with
  | none => Except.ok 0
  | some (CellVal.num q) => if q = 0 then Except.ok 0 else Except.ok q
  | some (CellVal.str t) =>
    if t = "" then Except.ok 0
    else match pyFloat? t with
      | some q => Except.ok q
      | none => Except.error ()

/-- One step of the second pass's scan (lines 48-54): `if` / `elif` on the
exact labels, assigning the coerced balance. -/
def pass2Step (s : Sheet) (st : Option ℚ × Option ℚ) (r : Nat) :
    Except Unit (Option ℚ × Option ℚ) :=
  if formView (getA s r) = some (CellVal.str "GL Balance August") then
    (coerceB s r).map (fun v => (some v, st.2))
  else if formView (getA s r) = some (CellVal.str "GL Balance September") then
    (coerceB s r).map (fun v => (st.1, some v))
  else Except.ok st

/-- The body of `read_mom_percentage`: first pass over rows 1..19 on the
calculated view; if none matches, second pass recomputing from the recorded
balances, guarded by `aug_balance != 0`. -/
def read_mom_core (s : Sheet) : Except Unit ℚ :=
  match (List.range' 1 19).find? (fun r => pass1Cond s r) with
  | some r =>
    match dataView (getB s r) with
    | some (CellVal.num q) => Except.ok q
    | some (CellVal.str t) =>
      match pyFloat? ((trimChars (t.data.filter (fun c => !(c = '%')))).asString) with
      | some q => Except.ok q
      | none => Except.error ()
    | none => Except.error ()
  | none => do
    let st ← (List.range' 1 19).foldlM (pass2Step s) (none, none)
    match st with
    | (some a, some b) => if a ≠ 0 then Except.ok ((b - a) / a * 100) else Except.ok 0
    | _ => Except.ok 0

/-- Lines 19-66 (`read_mom_percentage`): the body with every raised exception
caught and replaced by `0.0` (lines 64-66). -/
def read_mom_percentage (s : Sheet) : ℚ :=
  match read_mom_core s with
  | Except.ok q => q
  | Except.error _ => 0

/-! ## `generate_investigation_reason` and the trigger pipeline (lines 194-347)

The OpenAI client is an external capability: it is modelled as a parameter of
type `Except String (Option String)` — a successful call returns the (possibly
`None`) message content, a failed call carries `str(e)` of the raised
exception.  The prompt-building (lines 200-236) only feeds that capability and
does not influence the error path, so it is not modelled further.  File
access failures are modelled by the `ok : Bool` parameter of the pipeline
wrappers: each helper has its own `try`/`except` that leaves the workbook
unchanged (or yields `0.0`) when the file cannot be read. -/

def noKeyMsg : String := "Error: OpenAI API key not found in environment variables"

def noAnalysisMsg : String := "No analysis could be generated from the provided data"

/-- Line 260: the failure narrative, `f"Unable to generate AI analysis due to API error: {str(e)}"`. -/
def apiErrorMessage (cause : String) : String :=
  "Unable to generate AI analysis due to API error: " ++ cause

/-- Lines 194-260 (`generate_investigation_reason`): missing key short-circuit,
`content.strip()` on a truthy content, placeholder on falsy content, failure
message on a raised exception. -/
def generate_investigation_reason (hasKey : Bool) (svc : Except String (Option String)) : String :=
  if !hasKey then noKeyMsg
  else
    match svc with
    | Except.ok (some content) =>
      if !(content == "") then (trimChars content.data).asString else noAnalysisMsg
    | Except.ok none => noAnalysisMsg
    | Except.error e => apiErrorMessage e

/-- Line 15: `THRESHOLD_PERCENT = 10.0`. -/
def THRESHOLD_PERCENT : ℚ := 10

/-- `clear_previous_reason` including its `try`/`except` around the file
access: an unreadable workbook is left unchanged. -/
def clearOp (ok : Bool) (s : Sheet) : Sheet := if ok then clear_previous_reason s else s

/-- `read_mom_percentage` including the file access: an unreadable workbook
yields `0.0` through the same `except` clause. -/
def readOp (ok : Bool) (s : Sheet) : ℚ := if ok then read_mom_percentage s else 0

/-- `update_excel_with_reason` including its `try`/`except`. -/
def updateOp (ok : Bool) (n : String) (s : Sheet) : Sheet :=
  if ok then update_excel_with_reason n s else s

/-- Lines 316-345 (`main`), with the narrative the generator would return
passed in as `narrative`: clear any previous reason, read the movement
percentage from the (cleared) report, stop when within threshold, otherwise
investigate and write the narrative back.  The returned flag records whether
the investigation path was taken (context gathered, narrative requested). -/
def runTrigger (t : ℚ) (ok : Bool) (narrative : String) (s : Sheet) : Sheet × Bool :=
  let s1 := clearOp ok s
  let p := readOp ok s1
  if |p| ≤ t then (s1, false)
  else (updateOp ok narrative s1, true)

/-- The full `main` of `variance_investigator.py`: the narrative written on the
investigation path is whatever `generate_investigation_reason` returns for the
configured key and the narrative service's outcome. -/
def mainRun (ok : Bool) (hasKey : Bool) (svc : Except String (Option String)) (s : Sheet) :
    Sheet × Bool :=
  runTrigger THRESHOLD_PERCENT ok (generate_investigation_reason hasKey svc) s

/-! ## The report produced by `build_excel` (recon_ap.py lines 111-130)

The summary sheet as `build_excel` writes it: seven key/value rows; the
`Movement MoM`, `Variance` and `MoM % Change` cells hold formulas whose cached
value is `None` in a freshly written file (openpyxl does not evaluate
formulas). -/
def initialSummary (stmt aug sep : ℚ) : Sheet :=
  [ ⟨CellContent.val (CellVal.str "Item"), CellContent.val (CellVal.str "Amount")⟩,
    ⟨CellContent.val (CellVal.str "Statement Closing Balance"), CellContent.val (CellVal.num stmt)⟩,
    ⟨CellContent.val (CellVal.str "GL Balance August"), CellContent.val (CellVal.num aug)⟩,
    ⟨CellContent.val (CellVal.str "GL Balance September"), CellContent.val (CellVal.num sep)⟩,
    ⟨CellContent.val (CellVal.str "Movement MoM"), CellContent.formula "=B4-B3" none⟩,
    ⟨CellContent.val (CellVal.str "Variance"), CellContent.formula "=B2-B4" none⟩,
    ⟨CellContent.val (CellVal.str "MoM % Change"), CellContent.formula "=(B4-B3)/B3*100" none⟩ ]

/-- The initial summary with the cleared eighth row left behind by
`clear_previous_reason` (clearing writes `None` into both cells rather than
deleting the row). -/
def summaryCleared (stmt aug sep : ℚ) : Sheet := initialSummary stmt aug sep ++ [emptyRow]

/-- The initial summary with a "Reason" row appended by the trigger. -/
def summaryWithReason (stmt aug sep : ℚ) (n : String) : Sheet :=
  initialSummary stmt aug sep ++
    [⟨CellContent.val (CellVal.str "Reason"), CellContent.val (CellVal.str n)⟩]

/-- The movement percentage the trigger recovers from any of the reachable
report states: recomputed from the two recorded balances, `0` when the
August balance is zero. -/
def recoveredMom (aug sep : ℚ) : ℚ := if aug = 0 then 0 else (sep - aug) / aug * 100

/-- Report states reachable by the pipeline: the freshly built report, and
anything the Investigation Trigger (with its configured threshold, any file
availability and any narrative) produces from a reachable state. -/
inductive Reachable (stmt aug sep : ℚ) : Sheet → Prop where
  | init : Reachable stmt aug sep (initialSummary stmt aug sep)
  | step (s : Sheet) (ok : Bool) (n : String) (h : Reachable stmt aug sep s) :
      Reachable stmt aug sep (runTrigger THRESHOLD_PERCENT ok n s).1

/-! ## Spec-side description of the movement recovery (for claim C4)

A declarative restatement of the recovery procedure, following the (amended)
specification text rather than the code's control flow: the first matching
pre-computed row is used when parseable and yields `0.0` when present but
unparseable; otherwise the balances recorded under the exact labels are used
— the last occurrence of each label within the scanned range, any unparseable
recorded balance collapsing the whole read to `0.0` — and a zero prior
balance yields `0.0`. -/

def balanceLabelRow (s : Sheet) (r : Nat) : Bool :=
  decide (formView (getA s r) = some (CellVal.str "GL Balance August")) ||
    decide (formView (getA s r) = some (CellVal.str "GL Balance September"))

def coerceFails (s : Sheet) (r : Nat) : Bool :=
  match coerceB s r with
  | Except.error _ => true
  | Except.ok _ => false

/-- The numeric value of a coercible balance cell. -/
def specCoerce (s : Sheet) (r : Nat) : ℚ := ((coerceB s r).toOption).getD 0

/-- The balance recorded under `label`: the last row in 1..19 carrying the
label, coerced. -/
def specLastValue (s : Sheet) (label : String) : Option ℚ :=
  (((List.range' 1 19).filter
      (fun r => decide (formView (getA s r) = some (CellVal.str label)))).getLast?).map
    (specCoerce s)

/-- The balance recorded under `label` among the rows `rs`, coerced, with a
default for the case where no row carries the label. -/
def specLastOr (s : Sheet) (label : String) (rs : List Nat) (d : Option ℚ) : Option ℚ :=
  match (rs.filter
      (fun r => decide (formView (getA s r) = some (CellVal.str label)))).getLast? with
  | some r => some (specCoerce s r)
  | none => d

def momRecoverySpec (s : Sheet) : ℚ :=
  match ((List.range' 1 19).filter (fun r => pass1Cond s r)).head? with
  | some r =>
    match dataView (getB s r) with
    | some (CellVal.num q) => q
    | some (CellVal.str t) =>
      (pyFloat? ((trimChars (t.data.filter (fun c => !(c = '%')))).asString)).getD 0
    | none => 0
  | none =>
    if (List.range' 1 19).any (fun r => balanceLabelRow s r && coerceFails s r) then 0
    else
      match specLastValue s "GL Balance August", specLastValue s "GL Balance September" with
      | some a, some b => if a = 0 then 0 else (b - a) / a * 100
      | _, _ => 0

/-- The three forms a pipeline-reachable summary sheet can take (established
below by induction over `Reachable`). -/
def ReportShape (stmt aug sep : ℚ) (s : Sheet) : Prop :=
  s = initialSummary stmt aug sep ∨ s = summaryCleared stmt aug sep ∨
    ∃ m, s = summaryWithReason stmt aug sep m

/-- A summary whose pre-computed "MoM % Change" value is present but not a
parseable number, while both balances are recorded (used against claim C4). -/
def momTextSheet : Sheet :=
  [ ⟨CellContent.val (CellVal.str "MoM % Change"), CellContent.val (CellVal.str "abc")⟩,
    ⟨CellContent.val (CellVal.str "GL Balance August"), CellContent.val (CellVal.num 100)⟩,
    ⟨CellContent.val (CellVal.str "GL Balance September"), CellContent.val (CellVal.num 150)⟩ ]

/-- A summary with an orphan value in `B2` below the last row whose `A` cell
is populated (used against claim C10). -/
def orphanSheet : Sheet :=
  [ ⟨CellContent.val (CellVal.str "Item"), CellContent.val (CellVal.str "Amount")⟩,
    ⟨CellContent.empty, CellContent.val (CellVal.str "orphan")⟩ ]

/-- A summary on which the body of `read_mom_percentage` raises: the
pre-computed value is present but `float("abc")` fails (used for claim C9). -/
def errorSheet : Sheet :=
  [ ⟨CellContent.val (CellVal.str "MoM % Change"), CellContent.val (CellVal.str "abc")⟩ ]

/-! ## Helper lemmas -/

theorem exceptBind_ok {ε α β : Type} (x : α) (f : α → Except ε β) :
    (Except.ok x : Except ε α) >>= f = f x := rfl

theorem exceptBind_err {ε α β : Type} (e : ε) (f : α → Except ε β) :
    (Except.error e : Except ε α) >>= f = Except.error e := rfl

theorem exceptMap_ok {ε α β : Type} (f : α → β) (x : α) :
    Except.map f (Except.ok x : Except ε α) = Except.ok (f x) := rfl

theorem find?_eq_filter_head? {α : Type} (p : α → Bool) (l : List α) :
    l.find? p = (l.filter p).head? := by
  induction l with
  | nil => rfl
  | cons a t ih =>
    by_cases h : p a
    · rw [List.find?_cons_of_pos _ h, List.filter_cons_of_pos h, List.head?_cons]
    · rw [List.find?_cons_of_neg _ h, List.filter_cons_of_neg h, ih]

theorem coerceB_num (s : Sheet) (r : Nat) (q : ℚ)
    (h : formView (getB s r) = some (CellVal.num q)) : coerceB s r = Except.ok q := by
  unfold coerceB
  rw [h]
  by_cases hq : q = 0
  · subst hq; simp
  · simp [hq]

theorem pass2_fold_shape (s : Sheet) (b c : ℚ)
    (h3a : formView (getA s 3) = some (CellVal.str "GL Balance August"))
    (h3b : formView (getB s 3) = some (CellVal.num b))
    (h4a : formView (getA s 4) = some (CellVal.str "GL Balance September"))
    (h4b : formView (getB s 4) = some (CellVal.num c))
    (hns : ∀ (st : Option ℚ × Option ℚ) r,
      r ∈ ([1, 2, 5, 6, 7, 8, 9, 10, 11, 12, 13, 14, 15, 16, 17, 18, 19] : List Nat) →
      pass2Step s st r = Except.ok st) :
    (List.range' 1 19).foldlM (pass2Step s) (none, none) = Except.ok (some b, some c) := by
  have h3 : ∀ st : Option ℚ × Option ℚ, pass2Step s st 3 = Except.ok (some b, st.2) := by
    intro st
    simp [pass2Step, h3a, coerceB_num s 3 b h3b, Except.map]
  have h4 : ∀ st : Option ℚ × Option ℚ, pass2Step s st 4 = Except.ok (st.1, some c) := by
    intro st
    simp [pass2Step, h4a, coerceB_num s 4 c h4b, Except.map]
  have g1 := fun st => hns st 1 (by norm_num)
  have g2 := fun st => hns st 2 (by norm_num)
  have g5 := fun st => hns st 5 (by norm_num)
  have g6 := fun st => hns st 6 (by norm_num)
  have g7 := fun st => hns st 7 (by norm_num)
  have g8 := fun st => hns st 8 (by norm_num)
  have g9 := fun st => hns st 9 (by norm_num)
  have g10 := fun st => hns st 10 (by norm_num)
  have g11 := fun st => hns st 11 (by norm_num)
  have g12 := fun st => hns st 12 (by norm_num)
  have g13 := fun st => hns st 13 (by norm_num)
  have g14 := fun st => hns st 14 (by norm_num)
  have g15 := fun st => hns st 15 (by norm_num)
  have g16 := fun st => hns st 16 (by norm_num)
  have g17 := fun st => hns st 17 (by norm_num)
  have g18 := fun st => hns st 18 (by norm_num)
  have g19 := fun st => hns st 19 (by norm_num)
  have e1 : List.range' 1 19 = [1,2,3,4,5,6,7,8,9,10,11,12,13,14,15,16,17,18,19] := rfl
  rw [e1]
  simp only [List.foldlM_cons, List.foldlM_nil, g1, g2, h3, h4, g5, g6, g7, g8, g9, g10,
    g11, g12, g13, g14, g15, g16, g17, g18, g19, exceptBind_ok]
  rfl

theorem read_core_of_parts (s : Sheet) (b c : ℚ)
    (hfind : (List.range' 1 19).find? (fun r => pass1Cond s r) = none)
    (hfold : (List.range' 1 19).foldlM (pass2Step s) (none, none) = Except.ok (some b, some c)) :
    read_mom_core s = Except.ok (recoveredMom b c) := by
  unfold read_mom_core
  rw [hfind, hfold, exceptBind_ok]
  by_cases hb : b = 0 <;> simp [recoveredMom, hb]

theorem read_mom_initial (a b c : ℚ) :
    read_mom_percentage (initialSummary a b c) = recoveredMom b c := by
  have h := read_core_of_parts (initialSummary a b c) b c rfl
    (pass2_fold_shape _ b c rfl rfl rfl rfl (by intro st r hr; fin_cases hr <;> rfl))
  unfold read_mom_percentage
  rw [h]

theorem read_mom_cleared (a b c : ℚ) :
    read_mom_percentage (summaryCleared a b c) = recoveredMom b c := by
  have h := read_core_of_parts (summaryCleared a b c) b c rfl
    (pass2_fold_shape _ b c rfl rfl rfl rfl (by intro st r hr; fin_cases hr <;> rfl))
  unfold read_mom_percentage
  rw [h]

theorem read_mom_withReason (a b c : ℚ) (m : String) :
    read_mom_percentage (summaryWithReason a b c m) = recoveredMom b c := by
  have h := read_core_of_parts (summaryWithReason a b c m) b c rfl
    (pass2_fold_shape _ b c rfl rfl rfl rfl (by intro st r hr; fin_cases hr <;> rfl))
  unfold read_mom_percentage
  rw [h]

theorem clear_initial (a b c : ℚ) :
    clear_previous_reason (initialSummary a b c) = initialSummary a b c := rfl

theorem clear_cleared (a b c : ℚ) :
    clear_previous_reason (summaryCleared a b c) = summaryCleared a b c := rfl

theorem clear_withReason (a b c : ℚ) (m : String) :
    clear_previous_reason (summaryWithReason a b c m) = summaryCleared a b c := rfl

theorem update_initial (a b c : ℚ) (n : String) :
    update_excel_with_reason n (initialSummary a b c) = summaryWithReason a b c n := rfl

theorem update_cleared (a b c : ℚ) (n : String) :
    update_excel_with_reason n (summaryCleared a b c) = summaryWithReason a b c n := rfl

theorem runTrigger_notOk (t : ℚ) (ht : 0 ≤ t) (n : String) (s : Sheet) :
    runTrigger t false n s = (s, false) := by
  simp [runTrigger, clearOp, readOp, updateOp, abs_nonpos_iff, ht]

theorem runTrigger_within (t : ℚ) (n : String) (s : Sheet)
    (hp : |read_mom_percentage (clear_previous_reason s)| ≤ t) :
    runTrigger t true n s = (clear_previous_reason s, false) := by
  simp [runTrigger, clearOp, readOp, hp]

theorem runTrigger_exceeds (t : ℚ) (n : String) (s : Sheet)
    (hp : t < |read_mom_percentage (clear_previous_reason s)|) :
    runTrigger t true n s = (update_excel_with_reason n (clear_previous_reason s), true) := by
  simp [runTrigger, clearOp, readOp, updateOp, not_le.mpr hp]

theorem clear_of_shape (a b c : ℚ) (s : Sheet) (hs : ReportShape a b c s) :
    clear_previous_reason s = s ∨ clear_previous_reason s = summaryCleared a b c := by
  rcases hs with h | h | ⟨m, h⟩ <;> subst h
  · exact Or.inl (clear_initial a b c)
  · exact Or.inl (clear_cleared a b c)
  · exact Or.inr (clear_withReason a b c m)

theorem read_of_shape (a b c : ℚ) (s : Sheet) (hs : ReportShape a b c s) :
    read_mom_percentage s = recoveredMom b c := by
  rcases hs with h | h | ⟨m, h⟩ <;> subst h
  · exact read_mom_initial a b c
  · exact read_mom_cleared a b c
  · exact read_mom_withReason a b c m

theorem clear_shape_read (a b c : ℚ) (s : Sheet) (hs : ReportShape a b c s) :
    read_mom_percentage (clear_previous_reason s) = recoveredMom b c := by
  rcases clear_of_shape a b c s hs with h | h <;> rw [h]
  · exact read_of_shape a b c s hs
  · exact read_mom_cleared a b c

theorem update_clear_shape (a b c : ℚ) (n : String) (s : Sheet) (hs : ReportShape a b c s) :
    update_excel_with_reason n (clear_previous_reason s) = summaryWithReason a b c n := by
  rcases hs with h | h | ⟨m, h⟩ <;> subst h
  · rw [clear_initial, update_initial]
  · rw [clear_cleared, update_cleared]
  · rw [clear_withReason, update_cleared]

theorem shape_step (a b c : ℚ) (ok : Bool) (n : String) (s : Sheet) (hs : ReportShape a b c s) :
    ReportShape a b c (runTrigger THRESHOLD_PERCENT ok n s).1 := by
  cases ok with
  | false =>
    rw [runTrigger_notOk THRESHOLD_PERCENT (by norm_num [THRESHOLD_PERCENT]) n s]
    exact hs
  | true =>
    by_cases hp : |read_mom_percentage (clear_previous_reason s)| ≤ THRESHOLD_PERCENT
    · rw [runTrigger_within THRESHOLD_PERCENT n s hp]
      rcases clear_of_shape a b c s hs with h | h <;> rw [h]
      · exact hs
      · exact Or.inr (Or.inl rfl)
    · rw [runTrigger_exceeds THRESHOLD_PERCENT n s (not_le.mp hp)]
      exact Or.inr (Or.inr ⟨n, update_clear_shape a b c n s hs⟩)

theorem reachable_shape (a b c : ℚ) (s : Sheet) (h : Reachable a b c s) :
    ReportShape a b c s := by
  induction h with
  | init => exact Or.inl rfl
  | step s2 ok n h2 ih => exact shape_step a b c ok n s2 ih

theorem reasonCount_initial (a b c : ℚ) : reasonCount (initialSummary a b c) = 0 := rfl

theorem reasonCount_cleared (a b c : ℚ) : reasonCount (summaryCleared a b c) = 0 := rfl

theorem reasonCount_withReason (a b c : ℚ) (m : String) :
    reasonCount (summaryWithReason a b c m) = 1 := rfl

theorem shape_reasonCount (a b c : ℚ) (s : Sheet) (hs : ReportShape a b c s) :
    reasonCount s ≤ 1 := by
  rcases hs with h | h | ⟨m, h⟩ <;> subst h
  · rw [reasonCount_initial]; norm_num
  · rw [reasonCount_cleared]; norm_num
  · rw [reasonCount_withReason]

theorem length_padTo (s : Sheet) (n : Nat) : (padTo s n).length = max s.length n := by
  simp [padTo]
  omega

theorem getRow_padTo (s : Sheet) (n r : Nat) : getRow (padTo s n) r = getRow s r := by
  unfold getRow padTo
  rw [List.getD_eq_getElem?_getD, List.getD_eq_getElem?_getD]
  rcases lt_or_ge (r - 1) s.length with h | h
  · rw [List.getElem?_append_left h]
  · rw [List.getElem?_append_right h, List.getElem?_eq_none h, List.getElem?_replicate]
    split <;> rfl

theorem getRow_setRow_self (s : Sheet) (r : Nat) (row : SheetRow) (h : 1 ≤ r) :
    getRow (setRow s r row) r = row := by
  unfold getRow setRow
  rw [List.getD_eq_getElem?_getD, List.getElem?_set_self (by rw [length_padTo]; omega)]
  rfl

theorem getRow_setRow_ne (s : Sheet) (r : Nat) (row : SheetRow) (r2 : Nat)
    (hr : 1 ≤ r) (h : 1 ≤ r2) (hne : r2 ≠ r) : getRow (setRow s r row) r2 = getRow s r2 := by
  unfold setRow
  have hd : r - 1 ≠ r2 - 1 := by omega
  have h2 : getRow ((padTo s r).set (r - 1) row) r2 = getRow (padTo s r) r2 := by
    unfold getRow
    rw [List.getD_eq_getElem?_getD, List.getD_eq_getElem?_getD, List.getElem?_set_ne hd]
  rw [h2, getRow_padTo]

theorem getA_setA_self (s : Sheet) (r : Nat) (v : CellContent) (h : 1 ≤ r) :
    getA (setA s r v) r = v := by
  unfold getA setA
  rw [getRow_setRow_self _ _ _ h]

theorem getB_setA_self (s : Sheet) (r : Nat) (v : CellContent) (h : 1 ≤ r) :
    getB (setA s r v) r = getB s r := by
  unfold getB setA
  rw [getRow_setRow_self _ _ _ h]

theorem getA_setB_self (s : Sheet) (r : Nat) (v : CellContent) (h : 1 ≤ r) :
    getA (setB s r v) r = getA s r := by
  unfold getA setB
  rw [getRow_setRow_self _ _ _ h]

theorem getB_setB_self (s : Sheet) (r : Nat) (v : CellContent) (h : 1 ≤ r) :
    getB (setB s r v) r = v := by
  unfold getB setB
  rw [getRow_setRow_self _ _ _ h]

theorem getA_setA_ne (s : Sheet) (r : Nat) (v : CellContent) (r2 : Nat)
    (hr : 1 ≤ r) (h : 1 ≤ r2) (hne : r2 ≠ r) : getA (setA s r v) r2 = getA s r2 := by
  unfold getA setA
  rw [getRow_setRow_ne _ _ _ _ hr h hne]

theorem getB_setA_ne (s : Sheet) (r : Nat) (v : CellContent) (r2 : Nat)
    (hr : 1 ≤ r) (h : 1 ≤ r2) (hne : r2 ≠ r) : getB (setA s r v) r2 = getB s r2 := by
  unfold getB setA
  rw [getRow_setRow_ne _ _ _ _ hr h hne]

theorem getA_setB_ne (s : Sheet) (r : Nat) (v : CellContent) (r2 : Nat)
    (hr : 1 ≤ r) (h : 1 ≤ r2) (hne : r2 ≠ r) : getA (setB s r v) r2 = getA s r2 := by
  unfold getA setB
  rw [getRow_setRow_ne _ _ _ _ hr h hne]

theorem getB_setB_ne (s : Sheet) (r : Nat) (v : CellContent) (r2 : Nat)
    (hr : 1 ≤ r) (h : 1 ≤ r2) (hne : r2 ≠ r) : getB (setB s r v) r2 = getB s r2 := by
  unfold getB setB
  rw [getRow_setRow_ne _ _ _ _ hr h hne]

theorem findReasonRow_bounds (s : Sheet) (r : Nat) (h : findReasonRow s = some r) :
    1 ≤ r ∧ r ≤ 49 ∧ isReasonA (getA s r) = true := by
  unfold findReasonRow at h
  have hmem := List.mem_of_find?_eq_some h
  have hp := List.find?_some h
  rw [List.mem_range'_1] at hmem
  exact ⟨hmem.1, by omega, hp⟩

theorem lastTruthyRow_bounds (s : Sheet) : 1 ≤ lastTruthyRow s ∧ lastTruthyRow s ≤ 49 := by
  unfold lastTruthyRow
  have aux : ∀ (l : List Nat) (acc : Nat), 1 ≤ acc → acc ≤ 49 → (∀ x ∈ l, 1 ≤ x ∧ x ≤ 49) →
      1 ≤ l.foldl (fun acc r => if cellTruthy (formView (getA s r)) then r else acc) acc ∧
        l.foldl (fun acc r => if cellTruthy (formView (getA s r)) then r else acc) acc ≤ 49 := by
    intro l
    induction l with
    | nil => intro acc h1 h2 _; exact ⟨h1, h2⟩
    | cons x t ih =>
      intro acc h1 h2 hall
      simp only [List.foldl_cons]
      have hx := hall x (by simp)
      by_cases hc : cellTruthy (formView (getA s x))
      · rw [if_pos hc]
        exact ih x hx.1 hx.2 (fun y hy => hall y (by simp [hy]))
      · rw [if_neg hc]
        exact ih acc h1 h2 (fun y hy => hall y (by simp [hy]))
  exact aux (List.range' 1 49) 1 (by norm_num) (by norm_num)
    (by intro x hx; rw [List.mem_range'_1] at hx; omega)

theorem pass2Step_not_label (s : Sheet) (st : Option ℚ × Option ℚ) (r : Nat)
    (h : balanceLabelRow s r = false) : pass2Step s st r = Except.ok st := by
  unfold balanceLabelRow at h
  simp only [Bool.or_eq_false_iff, decide_eq_false_iff_not] at h
  unfold pass2Step
  rw [if_neg h.1, if_neg h.2]

theorem pass2Step_fails (s : Sheet) (st : Option ℚ × Option ℚ) (r : Nat)
    (hl : balanceLabelRow s r = true) (hc : coerceFails s r = true) :
    pass2Step s st r = Except.error () := by
  have he : coerceB s r = Except.error () := by
    cases h : coerceB s r with
    | error e => cases e; rfl
    | ok v => unfold coerceFails at hc; rw [h] at hc; simp at hc
  unfold balanceLabelRow at hl
  simp only [Bool.or_eq_true, decide_eq_true_eq] at hl
  unfold pass2Step
  by_cases h1 : formView (getA s r) = some (CellVal.str "GL Balance August")
  · rw [if_pos h1, he]; rfl
  · rcases hl with h2 | h2
    · exact absurd h2 h1
    · rw [if_neg h1, if_pos h2, he]; rfl

theorem coerceB_of_not_fails (s : Sheet) (r : Nat) (hc : coerceFails s r = false) :
    coerceB s r = Except.ok (specCoerce s r) := by
  cases h : coerceB s r with
  | error e => unfold coerceFails at hc; rw [h] at hc; simp at hc
  | ok v => unfold specCoerce; rw [h]; rfl

theorem pass2_foldlM_characterization (s : Sheet) (rs : List Nat) (st : Option ℚ × Option ℚ) :
    rs.foldlM (pass2Step s) st =
      if rs.any (fun r => balanceLabelRow s r && coerceFails s r) then Except.error ()
      else Except.ok (specLastOr s "GL Balance August" rs st.1,
        specLastOr s "GL Balance September" rs st.2) := by
  induction rs generalizing st with
  | nil => simp [specLastOr, List.foldlM_nil]; rfl
  | cons r t ih =>
    rw [List.foldlM_cons]
    by_cases hl : balanceLabelRow s r = true
    · by_cases hc : coerceFails s r = true
      · rw [pass2Step_fails s st r hl hc, exceptBind_err]
        rw [if_pos (by simp [List.any_cons, hl, hc])]
      · have hcf : coerceFails s r = false := by simp at hc; exact hc
        have hv := coerceB_of_not_fails s r hcf
        have hany : ((r :: t).any (fun x => balanceLabelRow s x && coerceFails s x)) =
            (t.any (fun x => balanceLabelRow s x && coerceFails s x)) := by
          simp [List.any_cons, hcf]
        unfold balanceLabelRow at hl
        simp only [Bool.or_eq_true, decide_eq_true_eq] at hl
        by_cases haug : formView (getA s r) = some (CellVal.str "GL Balance August")
        · have hsep : ¬(formView (getA s r) = some (CellVal.str "GL Balance September")) := by
            rw [haug]; simp
          have hstep : pass2Step s st r = Except.ok (some (specCoerce s r), st.2) := by
            unfold pass2Step
            rw [if_pos haug, hv]; rfl
          rw [hstep, exceptBind_ok, ih, hany]
          by_cases hany2 : (t.any (fun x => balanceLabelRow s x && coerceFails s x)) = true
          · rw [if_pos hany2, if_pos hany2]
          · rw [if_neg hany2, if_neg hany2]
            have e1 : specLastOr s "GL Balance August" (r :: t) st.1 =
                specLastOr s "GL Balance August" t (some (specCoerce s r)) := by
              unfold specLastOr
              rw [List.filter_cons_of_pos (by simp [haug]), List.getLast?_cons]
              cases hgl : (t.filter (fun x => decide (formView (getA s x) =
                  some (CellVal.str "GL Balance August")))).getLast? with
              | some x => simp [hgl]
              | none => simp [hgl]
            have e2 : specLastOr s "GL Balance September" (r :: t) st.2 =
                specLastOr s "GL Balance September" t st.2 := by
              unfold specLastOr
              rw [List.filter_cons_of_neg (by simp [hsep])]
            rw [e1, e2]
        · have hsep : formView (getA s r) = some (CellVal.str "GL Balance September") := by
            rcases hl with h1 | h2
            · exact absurd h1 haug
            · exact h2
          have hstep : pass2Step s st r = Except.ok (st.1, some (specCoerce s r)) := by
            unfold pass2Step
            rw [if_neg haug, if_pos hsep, hv]; rfl
          rw [hstep, exceptBind_ok, ih, hany]
          by_cases hany2 : (t.any (fun x => balanceLabelRow s x && coerceFails s x)) = true
          · rw [if_pos hany2, if_pos hany2]
          · rw [if_neg hany2, if_neg hany2]
            have e1 : specLastOr s "GL Balance August" (r :: t) st.1 =
                specLastOr s "GL Balance August" t st.1 := by
              unfold specLastOr
              rw [List.filter_cons_of_neg (by simp [haug])]
            have e2 : specLastOr s "GL Balance September" (r :: t) st.2 =
                specLastOr s "GL Balance September" t (some (specCoerce s r)) := by
              unfold specLastOr
              rw [List.filter_cons_of_pos (by simp [hsep]), List.getLast?_cons]
              cases hgl : (t.filter (fun x => decide (formView (getA s x) =
                  some (CellVal.str "GL Balance September")))).getLast? with
              | some x => simp [hgl]
              | none => simp [hgl]
            rw [e1, e2]
    · have hlf : balanceLabelRow s r = false := by simp at hl; exact hl
      rw [pass2Step_not_label s st r hlf, exceptBind_ok, ih]
      unfold balanceLabelRow at hlf
      simp only [Bool.or_eq_false_iff, decide_eq_false_iff_not] at hlf
      have hany : ((r :: t).any (fun x => balanceLabelRow s x && coerceFails s x)) =
          (t.any (fun x => balanceLabelRow s x && coerceFails s x)) := by
        simp [List.any_cons, balanceLabelRow, hlf.1, hlf.2]
      rw [hany]
      by_cases hany2 : (t.any (fun x => balanceLabelRow s x && coerceFails s x)) = true
      · rw [if_pos hany2, if_pos hany2]
      · rw [if_neg hany2, if_neg hany2]
        have e1 : specLastOr s "GL Balance August" (r :: t) st.1 =
            specLastOr s "GL Balance August" t st.1 := by
          unfold specLastOr
          rw [List.filter_cons_of_neg (by simp [hlf.1])]
        have e2 : specLastOr s "GL Balance September" (r :: t) st.2 =
            specLastOr s "GL Balance September" t st.2 := by
          unfold specLastOr
          rw [List.filter_cons_of_neg (by simp [hlf.2])]
        rw [e1, e2]

theorem specLastValue_eq (s : Sheet) (label : String) :
    specLastValue s label = specLastOr s label (List.range' 1 19) none := by
  unfold specLastValue specLastOr
  cases h : ((List.range' 1 19).filter
      (fun r => decide (formView (getA s r) = some (CellVal.str label)))).getLast? with
  | some x => rfl
  | none => rfl

theorem tier1_skip (ls rest : List String) (h : ∀ l ∈ ls, hasBalanceOrTotal l = false) :
    tier1 (ls ++ rest) = tier1 rest := by
  induction ls with
  | nil => rfl
  | cons x t ih =>
    rw [List.cons_append]
    have hx : hasBalanceOrTotal x = false := h x (by simp)
    simp only [tier1, hx, Bool.false_eq_true, if_false]
    exact ih (fun l hl => h l (by simp [hl]))

theorem listIsPrefixOf_self {α : Type} [DecidableEq α] (l : List α) : l.isPrefixOf l = true := by
  induction l with
  | nil => rfl
  | cons a t ih => simp [List.isPrefixOf, ih]

theorem strContainsSub_append (a b : String) : strContainsSub (a ++ b) b = true := by
  unfold strContainsSub
  rw [List.any_eq_true]
  refine ⟨b.data, ?_, listIsPrefixOf_self b.data⟩
  rw [List.mem_tails, String.data_append]
  exact List.suffix_append a.data b.data

theorem update_writes_reason (s : Sheet) (n : String) :
    ∃ r, 1 ≤ r ∧ isReasonA (getA (update_excel_with_reason n s) r) = true ∧
      getB (update_excel_with_reason n s) r = CellContent.val (CellVal.str n) := by
  unfold update_excel_with_reason
  cases hf : findReasonRow s with
  | some r =>
    obtain ⟨h1, _, h3⟩ := findReasonRow_bounds s r hf
    exact ⟨r, h1, by rw [getA_setB_self s r _ h1]; exact h3, getB_setB_self s r _ h1⟩
  | none =>
    obtain ⟨hl1, _⟩ := lastTruthyRow_bounds s
    refine ⟨lastTruthyRow s + 1, by omega, ?_, ?_⟩
    · rw [getA_setB_self _ _ _ (by omega), getA_setA_self _ _ _ (by omega)]
      rfl
    · rw [getB_setB_self _ _ _ (by omega)]

theorem runTrigger_invest_shape (a b c : ℚ) (n : String) (s : Sheet)
    (hs : ReportShape a b c s) (hp : THRESHOLD_PERCENT < |recoveredMom b c|) :
    runTrigger THRESHOLD_PERCENT true n s =
      (summaryWithReason a b c n, true) := by
  have hr : THRESHOLD_PERCENT < |read_mom_percentage (clear_previous_reason s)| := by
    rw [clear_shape_read a b c s hs]
    exact hp
  rw [runTrigger_exceeds THRESHOLD_PERCENT n s hr, update_clear_shape a b c n s hs]

/-! ## Claims -/

/-- **C1** (code bug evaluation).  The claim says `extract_total` is total and
skips tokens whose cleaned form has more than one decimal point.  In the code,
the acceptance test `word_clean.replace(".", "").isdigit()` *accepts* the
token `1.2.3` (its digits are all numeric once every dot is removed), and the
subsequent `float("1.2.3")` raises `ValueError`, so on a document containing
the line `"Total 1.2.3"` the function raises instead of returning a value. -/
theorem c1_multidot_token_raises :
    tokenOk "1.2.3" = true ∧ pyFloat? (cleanToken "1.2.3") = none ∧
      extract_total ["Total 1.2.3"] 0 = Except.error () :=
  ⟨rfl, rfl, rfl⟩

/-- **C5** (code bug evaluation).  When the recorded prior balance is `0` (and
no pre-computed percentage is cached), `read_mom_percentage` raises no
division error, but it returns the plain numeric default `0.0` — not a
clearly-flagged non-numeric "undefined" state as the claim requires. -/
theorem c5_zero_prior_yields_numeric_zero :
    read_mom_core (initialSummary 125000 0 50000) = Except.ok 0 ∧
      read_mom_percentage (initialSummary 125000 0 50000) = 0 := by
  have h := read_core_of_parts (initialSummary 125000 0 50000) 0 50000 rfl
    (pass2_fold_shape _ _ _ rfl rfl rfl rfl (by intro st r hr; fin_cases hr <;> rfl))
  have hz : recoveredMom 0 50000 = 0 := by simp [recoveredMom]
  rw [hz] at h
  exact ⟨h, by unfold read_mom_percentage; rw [h]⟩

/-- **C7** (counterexample).  The claim quantifies over *every* document
containing the line `"Total Balance Due: $1,234.56"`; but the scan runs from
the end of the document, so a later balance/total line wins: appending
`"Balance 999"` makes `extract_total` return `999`, not `1234.56`. -/
theorem c7_counterexample :
    extract_total ["Total Balance Due: $1,234.56", "Balance 999"] 0 = Except.ok 999 ∧
      (999 : ℚ) ≠ 1234.56 := by
  constructor
  · have h : extract_total ["Total Balance Due: $1,234.56", "Balance 999"] 0 =
        Except.ok ((1 : ℚ) * ((999 : Nat) : ℚ)) := rfl
    rw [h]
    norm_num
  · norm_num

/-- **C7** (amended).  For every document text containing the line
`"Total Balance Due: $1,234.56"` such that no line containing the
case-insensitive token "balance" or "total" occurs after it, `extract_total`
returns `1234.56` via the labeled-line tier (lines scanned from the end,
tokens of the labeled line scanned from the end, first cleanly numeric token
returned). -/
theorem c7_amended_labeled_line (pre suf : List String) (fb : ℚ)
    (h : ∀ l ∈ suf, hasBalanceOrTotal l = false) :
    extract_total (pre ++ "Total Balance Due: $1,234.56" :: suf) fb =
      Except.ok 1234.56 := by
  unfold extract_total
  have hrev : (pre ++ "Total Balance Due: $1,234.56" :: suf).reverse =
      suf.reverse ++ "Total Balance Due: $1,234.56" :: pre.reverse := by
    rw [List.reverse_append, List.reverse_cons, List.append_assoc]
    rfl
  rw [hrev, tier1_skip _ _ (fun l hl => h l (List.mem_reverse.mp hl))]
  have hcond : hasBalanceOrTotal "Total Balance Due: $1,234.56" = true := rfl
  have hscan : scanWords (splitWhitespace "Total Balance Due: $1,234.56").reverse =
      some (Except.ok ((1 : ℚ) * ((123456 : Nat) : ℚ) / 10 ^ 2)) := rfl
  simp only [tier1, hcond, if_true, hscan]
  have : ((1 : ℚ) * ((123456 : Nat) : ℚ) / 10 ^ 2) = 1234.56 := by norm_num
  rw [this]

/-- **C7** (witness for the amended theorem): the single-line document. -/
theorem c7_amended_witness :
    extract_total (([] : List String) ++ "Total Balance Due: $1,234.56" :: []) 0 =
      Except.ok 1234.56 :=
  c7_amended_labeled_line [] [] 0 (by intro l hl; cases hl)

/-- **C8** (confirmed).  `aggregate` (the balance computation of
`filter_ap_activity`) is permutation-invariant, and each period balance is
`sum(credit) - sum(debit)` over that period's rows for the target account,
with `movement = sep - aug`. -/
theorem c8_aggregate_perm_invariant (code : String) (rows rows2 : List LedgerRow)
    (h : rows.Perm rows2) :
    filter_ap_activity code rows = filter_ap_activity code rows2 ∧
      (filter_ap_activity code rows).1 =
        ((((rows.filter (fun r => r.account_code = code)).filter
            (fun r => r.month = some 8)).map (fun r => r.credit)).sum -
          (((rows.filter (fun r => r.account_code = code)).filter
            (fun r => r.month = some 8)).map (fun r => r.debit)).sum) ∧
      (filter_ap_activity code rows).2.1 =
        ((((rows.filter (fun r => r.account_code = code)).filter
            (fun r => r.month = some 9)).map (fun r => r.credit)).sum -
          (((rows.filter (fun r => r.account_code = code)).filter
            (fun r => r.month = some 9)).map (fun r => r.debit)).sum) ∧
      (filter_ap_activity code rows).2.2 =
        (filter_ap_activity code rows).2.1 - (filter_ap_activity code rows).1 := by
  refine ⟨?_, rfl, rfl, rfl⟩
  have e : ∀ (m : Nat) (f : LedgerRow → ℚ),
      ((((rows.filter (fun r => r.account_code = code)).filter
          (fun r => r.month = some m)).map f).sum) =
        ((((rows2.filter (fun r => r.account_code = code)).filter
          (fun r => r.month = some m)).map f).sum) := by
    intro m f
    exact (((h.filter _).filter _).map f).sum_eq
  unfold filter_ap_activity
  dsimp only
  rw [e 8 (fun r => r.credit), e 8 (fun r => r.debit), e 9 (fun r => r.credit),
    e 9 (fun r => r.debit)]

/-- **C8** (witness): a two-row ledger and its swap. -/
theorem c8_aggregate_perm_witness :
    filter_ap_activity "2000"
        [⟨"2000", some 8, 100000, 0⟩, ⟨"2000", some 9, 140000, 0⟩] =
      filter_ap_activity "2000"
        [⟨"2000", some 9, 140000, 0⟩, ⟨"2000", some 8, 100000, 0⟩] :=
  (c8_aggregate_perm_invariant "2000" _ _ (by decide)).1

/-- **C9** (confirmed).  Any failure to open or read the persisted report
makes the movement read come back as `0.0` instead of propagating: an
unreadable workbook leaves the run at `(s, false)` — no investigation, no
abort — and any exception inside the read body yields `0.0`, which is within
the default threshold, so the trigger silently skips investigation. -/
theorem c9_read_failure_within_threshold :
    (∀ (hasKey : Bool) (svc : Except String (Option String)) (s : Sheet),
      mainRun false hasKey svc s = (s, false)) ∧
    (∀ s : Sheet, read_mom_core s = Except.error () → read_mom_percentage s = 0) ∧
    (∀ (s : Sheet) (n : String), read_mom_core (clear_previous_reason s) = Except.error () →
      runTrigger THRESHOLD_PERCENT true n s = (clear_previous_reason s, false)) := by
  refine ⟨?_, ?_, ?_⟩
  · intro k svc s
    exact runTrigger_notOk _ (by norm_num [THRESHOLD_PERCENT]) _ s
  · intro s h
    unfold read_mom_percentage
    rw [h]
  · intro s n h
    apply runTrigger_within
    have hz : read_mom_percentage (clear_previous_reason s) = 0 := by
      unfold read_mom_percentage
      rw [h]
    rw [hz]
    norm_num [THRESHOLD_PERCENT]

/-- **C9** (witness): a sheet whose read raises (`float("abc")`) yields `0.0`,
and the unreadable-workbook run leaves the sheet unchanged. -/
theorem c9_read_failure_witness :
    read_mom_percentage errorSheet = 0 ∧
      mainRun false true (Except.error "down") errorSheet = (errorSheet, false) :=
  ⟨c9_read_failure_within_threshold.2.1 errorSheet rfl,
    c9_read_failure_within_threshold.1 true (Except.error "down") errorSheet⟩

/-- **C2** (counterexample).  The claim asserts that two trigger runs on the
same report always leave exactly one "Reason" entry; but on a pipeline-built
report whose movement (3%) is within the threshold, both runs stop at the
threshold gate and the report ends with *zero* Reason entries. -/
theorem c2_counterexample :
    Reachable 125000 100000 103000 (initialSummary 125000 100000 103000) ∧
      (runTrigger THRESHOLD_PERCENT true "second"
        (runTrigger THRESHOLD_PERCENT true "first"
          (initialSummary 125000 100000 103000)).1).1 =
        initialSummary 125000 100000 103000 ∧
      reasonCount (runTrigger THRESHOLD_PERCENT true "second"
        (runTrigger THRESHOLD_PERCENT true "first"
          (initialSummary 125000 100000 103000)).1).1 = 0 := by
  have h1 : |read_mom_percentage (clear_previous_reason
      (initialSummary 125000 100000 103000))| ≤ THRESHOLD_PERCENT := by
    rw [clear_initial, read_mom_initial]
    norm_num [recoveredMom, THRESHOLD_PERCENT]
  refine ⟨Reachable.init, ?_, ?_⟩ <;>
    simp only [runTrigger_within THRESHOLD_PERCENT "first" _ h1, clear_initial,
      runTrigger_within THRESHOLD_PERCENT "second" _ h1, reasonCount_initial]

/-- **C2** (amended).  The persisted report holds at most one "Reason" entry
in every pipeline-reachable state; and running the Investigation Trigger
twice on the same report with no new data, *provided the recovered movement
percentage exceeds the threshold*, leaves exactly one "Reason" entry whose
value is the second run's narrative (the update replaces, never appends). -/
theorem c2_amended_reason_invariant :
    (∀ (stmt aug sep : ℚ) (s : Sheet), Reachable stmt aug sep s → reasonCount s ≤ 1) ∧
    (∀ (stmt aug sep : ℚ) (s : Sheet) (n1 n2 : String), Reachable stmt aug sep s →
      THRESHOLD_PERCENT < |recoveredMom aug sep| →
      (runTrigger THRESHOLD_PERCENT true n2
          (runTrigger THRESHOLD_PERCENT true n1 s).1).1 =
        summaryWithReason stmt aug sep n2 ∧
      reasonCount (runTrigger THRESHOLD_PERCENT true n2
          (runTrigger THRESHOLD_PERCENT true n1 s).1).1 = 1) := by
  constructor
  · intro stmt aug sep s h
    exact shape_reasonCount stmt aug sep s (reachable_shape stmt aug sep s h)
  · intro stmt aug sep s n1 n2 h hp
    have hs := reachable_shape stmt aug sep s h
    have h1 := runTrigger_invest_shape stmt aug sep n1 s hs hp
    have hs1 : ReportShape stmt aug sep (runTrigger THRESHOLD_PERCENT true n1 s).1 := by
      rw [h1]
      exact Or.inr (Or.inr ⟨n1, rfl⟩)
    have h2 := runTrigger_invest_shape stmt aug sep n2 _ hs1 hp
    constructor
    · rw [h2]
    · rw [h2]
      exact reasonCount_withReason stmt aug sep n2

/-- **C2** (witness for the amended theorem): the 40%-movement report, two
runs, second narrative retained as the only Reason entry. -/
theorem c2_amended_witness :
    (runTrigger THRESHOLD_PERCENT true "second"
        (runTrigger THRESHOLD_PERCENT true "first"
          (initialSummary 125000 100000 140000)).1).1 =
      summaryWithReason 125000 100000 140000 "second" ∧
    reasonCount (runTrigger THRESHOLD_PERCENT true "second"
        (runTrigger THRESHOLD_PERCENT true "first"
          (initialSummary 125000 100000 140000)).1).1 = 1 :=
  c2_amended_reason_invariant.2 125000 100000 140000 _ "first" "second" Reachable.init
    (by norm_num [recoveredMom, THRESHOLD_PERCENT])

/-- **C3** (confirmed).  With the recovered percentage `p` read back from the
(cleared) report and any configured threshold `t` (the code's constant is
`10.0`): if `|p| ≤ t` the run terminates with no narrative requested and no
Reason entry written (the report is exactly the cleared report); if `|p| > t`
the trigger takes the investigation path and writes a Reason entry carrying
the narrative. -/
theorem c3_threshold_gate (t : ℚ) (n : String) (s : Sheet) :
    THRESHOLD_PERCENT = 10 ∧
    (|read_mom_percentage (clear_previous_reason s)| ≤ t →
      runTrigger t true n s = (clear_previous_reason s, false)) ∧
    (t < |read_mom_percentage (clear_previous_reason s)| →
      (runTrigger t true n s).2 = true ∧
      ∃ r, 1 ≤ r ∧ isReasonA (getA (runTrigger t true n s).1 r) = true ∧
        getB (runTrigger t true n s).1 r = CellContent.val (CellVal.str n)) := by
  refine ⟨rfl, fun hp => runTrigger_within t n s hp, fun hp => ?_⟩
  rw [runTrigger_exceeds t n s hp]
  exact ⟨rfl, update_writes_reason (clear_previous_reason s) n⟩

/-- **C3** (witness): the 40%-movement report exceeds the default threshold
and a Reason entry carrying the narrative is written. -/
theorem c3_threshold_gate_witness :
    (runTrigger 10 true "narr" (initialSummary 125000 100000 140000)).2 = true ∧
    ∃ r, 1 ≤ r ∧
      isReasonA (getA (runTrigger 10 true "narr"
        (initialSummary 125000 100000 140000)).1 r) = true ∧
      getB (runTrigger 10 true "narr" (initialSummary 125000 100000 140000)).1 r =
        CellContent.val (CellVal.str "narr") :=
  (c3_threshold_gate 10 "narr" (initialSummary 125000 100000 140000)).2.2 (by
    rw [clear_initial, read_mom_initial]
    norm_num [recoveredMom])

/-- **C4** (counterexample).  On a report whose pre-computed "MoM % Change"
value is present but unparseable (`"abc"`), with balances 100 and 150
recorded, the code returns `0.0` through the exception handler — it does
*not* recompute `(150 - 100) / 100 * 100 = 50` from the balances as the
claim's "otherwise" branch requires. -/
theorem c4_counterexample :
    pass1Cond momTextSheet 1 = true ∧
      read_mom_percentage momTextSheet = 0 ∧
      (0 : ℚ) ≠ (150 - 100) / 100 * 100 := by
  refine ⟨rfl, ?_, by norm_num⟩
  have h : read_mom_core momTextSheet = Except.error () := rfl
  unfold read_mom_percentage
  rw [h]

/-- **C4** (amended).  The recovery used when evaluating equals the following
description: if some row of the scanned range carries a truthy "MoM % Change"
label with a non-`None` calculated value, the first such value is used when
parseable (stripping percent signs from text) and the read yields `0.0` when
it is not parseable (no recomputation); otherwise the percentage is
recomputed as `(b - a) / a * 100` from the last recorded August/September
balances, any unparseable recorded balance collapsing the read to `0.0`, and
a prior balance `a = 0` yielding `0.0` so investigation is skipped. -/
theorem c4_amended_recovery (s : Sheet) : read_mom_percentage s = momRecoverySpec s := by
  unfold read_mom_percentage read_mom_core momRecoverySpec
  rw [find?_eq_filter_head?]
  cases hh : ((List.range' 1 19).filter (fun r => pass1Cond s r)).head? with
  | some r =>
    dsimp only
    cases hb : dataView (getB s r) with
    | none => rfl
    | some v =>
      cases v with
      | num q => rfl
      | str t =>
        dsimp only
        cases hp : pyFloat? ((trimChars (t.data.filter (fun c => !(c = '%')))).asString) with
        | some q => rfl
        | none => rfl
  | none =>
    dsimp only
    rw [pass2_foldlM_characterization]
    by_cases hany :
        ((List.range' 1 19).any (fun r => balanceLabelRow s r && coerceFails s r)) = true
    · rw [if_pos hany, if_pos hany]
      rfl
    · rw [if_neg hany, if_neg hany, exceptBind_ok, specLastValue_eq, specLastValue_eq]
      cases ha : specLastOr s "GL Balance August" (List.range' 1 19) none with
      | none => rfl
      | some a =>
        dsimp only
        cases hbv : specLastOr s "GL Balance September" (List.range' 1 19) none with
        | none => rfl
        | some b =>
          dsimp only
          by_cases haz : a = 0
          · rw [if_neg (by simp [haz]), if_pos haz]
          · rw [if_pos haz, if_neg haz]

/-- **C6** (confirmed).  When the narrative service fails with cause `e` on a
run that investigates, the pipeline does not abort: the Reason entry written
is the deterministic failure message, which contains the cause string, and
the report update still happens. -/
theorem c6_failure_message (s : Sheet) (e : String)
    (hp : THRESHOLD_PERCENT < |read_mom_percentage (clear_previous_reason s)|) :
    (mainRun true true (Except.error e) s).2 = true ∧
    (mainRun true true (Except.error e) s).1 =
      update_excel_with_reason (apiErrorMessage e) (clear_previous_reason s) ∧
    (∃ r, 1 ≤ r ∧
      isReasonA (getA (mainRun true true (Except.error e) s).1 r) = true ∧
      getB (mainRun true true (Except.error e) s).1 r =
        CellContent.val (CellVal.str (apiErrorMessage e))) ∧
    strContainsSub (apiErrorMessage e) e = true := by
  have hg : generate_investigation_reason true (Except.error e) = apiErrorMessage e := rfl
  unfold mainRun
  rw [hg, runTrigger_exceeds THRESHOLD_PERCENT (apiErrorMessage e) s hp]
  exact ⟨rfl, rfl, update_writes_reason (clear_previous_reason s) (apiErrorMessage e),
    strContainsSub_append "Unable to generate AI analysis due to API error: " e⟩

/-- **C6** (witness): a transport error `"boom"` on the 40%-movement report. -/
theorem c6_failure_message_witness :
    (mainRun true true (Except.error "boom") (initialSummary 125000 100000 140000)).2 = true ∧
    (mainRun true true (Except.error "boom") (initialSummary 125000 100000 140000)).1 =
      update_excel_with_reason (apiErrorMessage "boom")
        (clear_previous_reason (initialSummary 125000 100000 140000)) ∧
    (∃ r, 1 ≤ r ∧
      isReasonA (getA (mainRun true true (Except.error "boom")
        (initialSummary 125000 100000 140000)).1 r) = true ∧
      getB (mainRun true true (Except.error "boom")
          (initialSummary 125000 100000 140000)).1 r =
        CellContent.val (CellVal.str (apiErrorMessage "boom"))) ∧
    strContainsSub (apiErrorMessage "boom") "boom" = true :=
  c6_failure_message (initialSummary 125000 100000 140000) "boom" (by
    rw [clear_initial, read_mom_initial]
    norm_num [recoveredMom, THRESHOLD_PERCENT])

/-- **C10** (counterexample).  The claim says the no-existing-Reason branch
writes a *new* row immediately after the last populated row and leaves every
other cell unchanged.  On a sheet whose row 2 is populated only in its value
cell (`B2 = "orphan"`), the code's `last_row` scan — which only looks at
column A — picks row 1 and the write lands on row 2, destroying `B2`. -/
theorem c10_counterexample :
    findReasonRow orphanSheet = none ∧
      getB orphanSheet 2 = CellContent.val (CellVal.str "orphan") ∧
      getB (update_excel_with_reason "X" orphanSheet) 2 =
        CellContent.val (CellVal.str "X") ∧
      getA (update_excel_with_reason "X" orphanSheet) 3 = CellContent.empty :=
  ⟨rfl, rfl, rfl, rfl⟩

/-- **C10** (amended).  `update_excel_with_reason` modifies at most one row:
if a row whose first cell is (truthily) "reason" case-insensitively exists
among rows 1..49, only the first such row's value cell is overwritten;
otherwise the pair ("Reason", narrative) is written into row `L + 1`, where
`L` is the last row among 1..49 whose *first* cell is truthy (`L = 1` when
there is none), overwriting whatever that row held; every cell outside the
modified row is unchanged. -/
theorem c10_amended_frame (s : Sheet) (n : String) :
    (∀ r, findReasonRow s = some r →
      getA (update_excel_with_reason n s) r = getA s r ∧
      getB (update_excel_with_reason n s) r = CellContent.val (CellVal.str n) ∧
      ∀ r2, 1 ≤ r2 → r2 ≠ r →
        getA (update_excel_with_reason n s) r2 = getA s r2 ∧
        getB (update_excel_with_reason n s) r2 = getB s r2) ∧
    (findReasonRow s = none →
      1 ≤ lastTruthyRow s ∧ lastTruthyRow s ≤ 49 ∧
      getA (update_excel_with_reason n s) (lastTruthyRow s + 1) =
        CellContent.val (CellVal.str "Reason") ∧
      getB (update_excel_with_reason n s) (lastTruthyRow s + 1) =
        CellContent.val (CellVal.str n) ∧
      ∀ r2, 1 ≤ r2 → r2 ≠ lastTruthyRow s + 1 →
        getA (update_excel_with_reason n s) r2 = getA s r2 ∧
        getB (update_excel_with_reason n s) r2 = getB s r2) := by
  constructor
  · intro r hf
    obtain ⟨h1, _, _⟩ := findReasonRow_bounds s r hf
    unfold update_excel_with_reason
    rw [hf]
    exact ⟨getA_setB_self s r _ h1, getB_setB_self s r _ h1,
      fun r2 h2 hne => ⟨getA_setB_ne s r _ r2 h1 h2 hne, getB_setB_ne s r _ r2 h1 h2 hne⟩⟩
  · intro hf
    obtain ⟨hl1, hl2⟩ := lastTruthyRow_bounds s
    unfold update_excel_with_reason
    rw [hf]
    dsimp only
    refine ⟨hl1, hl2, ?_, ?_, ?_⟩
    · rw [getA_setB_self _ _ _ (by omega), getA_setA_self _ _ _ (by omega)]
    · rw [getB_setB_self _ _ _ (by omega)]
    · intro r2 h2 hne
      constructor
      · rw [getA_setB_ne _ _ _ _ (by omega) h2 hne, getA_setA_ne _ _ _ _ (by omega) h2 hne]
      · rw [getB_setB_ne _ _ _ _ (by omega) h2 hne, getB_setA_ne _ _ _ _ (by omega) h2 hne]

/-- **C10** (witness for the amended theorem): the append branch on
`orphanSheet` (no Reason row; last truthy first cell is row 1). -/
theorem c10_amended_frame_witness :
    1 ≤ lastTruthyRow orphanSheet ∧ lastTruthyRow orphanSheet ≤ 49 ∧
    getA (update_excel_with_reason "X" orphanSheet) (lastTruthyRow orphanSheet + 1) =
      CellContent.val (CellVal.str "Reason") ∧
    getB (update_excel_with_reason "X" orphanSheet) (lastTruthyRow orphanSheet + 1) =
      CellContent.val (CellVal.str "X") ∧
    ∀ r2, 1 ≤ r2 → r2 ≠ lastTruthyRow orphanSheet + 1 →
      getA (update_excel_with_reason "X" orphanSheet) r2 = getA orphanSheet r2 ∧
      getB (update_excel_with_reason "X" orphanSheet) r2 = getB orphanSheet r2 :=
  (c10_amended_frame orphanSheet "X").2 rfl
